import Mathlib

/-!
Verification of the natural-language specification of the nq-scripts
importer (src/importer/script.py) against a shallow embedding of the
script in Lean 4.

The script is a command-line client: it parses an argument vector,
reads and writes two local credential files (an auth token and a
takhtit identifier), issues HTTP requests against a remote API, prints
human-readable status lines and sets a process exit code.

The embedding models:
  - file contents as `Option String` (`none` = the file does not exist);
  - the HTTP layer as an environment `Env` that fixes, for each endpoint,
    either a response (status, text, and the JSON fields the script reads)
    or a transport error, together with the file system facts the script
    consults (`os.path.isfile`, `os.path.isdir`, `glob`);
  - an operation's observable behaviour as an `OpResult`: the final
    contents of the two credential files, the printed lines, the list of
    HTTP requests issued (in order), and `some code` when the operation
    called `sys.exit(code)` (`none` when it returned normally, in which
    case the process later exits 0);
  - Python truthiness of an optional string (`None` and `""` are falsy);
  - `str.strip` as `pyStrip` (ASCII whitespace on both ends);
  - the randomness of the password generator as an oracle `rand` for
    `secrets.choice` indices plus an arbitrary permutation `shuffle` for
    `secrets.SystemRandom().shuffle`.
-/

namespace Importer

/-- Whitespace characters removed by Python `str.strip` (ASCII range). -/
def isPySpace (c : Char) : Bool :=
  c = ' ' || c = '\t' || c = '\n' || c = '\r' || c = '\x0b' || c = '\x0c'

/-- Python `str.strip`: drop leading and trailing whitespace. -/
def pyStrip (s : String) : String :=
  String.mk (((s.toList.dropWhile isPySpace).reverse.dropWhile isPySpace).reverse)

/-- Python truthiness of a value that is either `None` or a string:
`None` and the empty string are falsy. -/
def pyTruthyOpt : Option String → Bool
  | none => false
  | some s => !(s == "")

/-- Python `str(x)` for an optional string, as interpolated into f-strings:
`None` prints as "None". -/
def pyShowOpt : Option String → String
  | none => "None"
  | some s => s

/-- `load_token`: return the token file's stripped contents, or `None`
when the file does not exist (file modelled as `Option String`). -/
def load_token : Option String → Option String
  | some contents => some (pyStrip contents)
  | none => none

/-- Writing the token file (`f.write(token)` inside `login`): the file now
holds exactly the written string. -/
def write_token_file (token : String) : Option String :=
  some token

/-- `save_takhtit_uuid`: overwrite the takhtit-uuid file with the string. -/
def save_takhtit_uuid (uuid : String) : Option String :=
  some uuid

/-- `load_takhtit_uuid`: stripped contents, or `None` when absent. -/
def load_takhtit_uuid : Option String → Option String
  | some contents => some (pyStrip contents)
  | none => none

/-! ## Password generator -/

/-- `string.ascii_lowercase` -/
def asciiLowercase : List Char := "abcdefghijklmnopqrstuvwxyz".toList

/-- `string.ascii_uppercase` -/
def asciiUppercase : List Char := "ABCDEFGHIJKLMNOPQRSTUVWXYZ".toList

/-- `string.digits` -/
def digitChars : List Char := "0123456789".toList

/-- The fixed symbol set of the generator. -/
def symbolChars : List Char := "-_@#$%".toList

/-- `alphabet = string.ascii_letters + string.digits + "-_@#$%"` -/
def passwordAlphabet : List Char :=
  asciiLowercase ++ asciiUppercase ++ digitChars ++ symbolChars

/-- `secrets.choice(seq)` driven by an oracle value `r`: picks the element
at index `r mod length`.  For a nonempty `seq` this is always an element
of `seq`, which is all the script relies on. -/
def pyChoice (seq : List Char) (r : Nat) : Char :=
  seq.getD (r % seq.length) 'a'

/-- `generate_strong_password(length)`.  `rand` supplies one oracle value
per `secrets.choice` call (in call order) and `shuffle` stands for
`secrets.SystemRandom().shuffle`; the requested length is an `int` and is
clamped up to 8. -/
def generate_strong_password (rand : Nat → Nat) (shuffle : List Char → List Char)
    (length : Int) : String :=
  let len : Nat := if length < 8 then 8 else length.toNat
  let password_chars : List Char :=
    [pyChoice asciiLowercase (rand 0),
     pyChoice asciiUppercase (rand 1),
     pyChoice digitChars (rand 2),
     pyChoice symbolChars (rand 3)] ++
    (List.range (len - 4)).map (fun i => pyChoice passwordAlphabet (rand (4 + i)))
  String.mk (shuffle password_chars)

/-! ## HTTP layer and environment -/

/-- A `requests` call either yields a response or raises (transport error
with a message). -/
inductive Http (α : Type) where
  | resp : α → Http α
  | err : String → Http α
deriving DecidableEq

/-- Response to `POST /auth/login/`: status, text, and `json().get("token")`. -/
structure LoginResp where
  status : Nat
  text : String
  tokenField : Option String
deriving DecidableEq

/-- Response to `POST /users/`: status, text, and `json().get("uuid")`. -/
structure UserResp where
  status : Nat
  text : String
  uuid : Option String
deriving DecidableEq

/-- One entry of the `GET /mushafs/` JSON list, as read by the script:
`get("short_name")` and `get("uuid")`. -/
structure Mushaf where
  short_name : Option String
  uuid : Option String
deriving DecidableEq

/-- Response to `GET /mushafs/`: status, text and the parsed JSON list. -/
structure MushafsResp where
  status : Nat
  text : String
  mushafs : List Mushaf
deriving DecidableEq

/-- Response to `POST /takhtits/`: status, text, and `json().get("uuid")`. -/
structure TakhtitResp where
  status : Nat
  text : String
  uuid : Option String
deriving DecidableEq

/-- Response to a file-upload POST: only status and text are read. -/
structure UploadResp where
  status : Nat
  text : String
deriving DecidableEq

/-- An HTTP request issued by the script, recorded in issue order.
`postTakhtits` records the payload fields the script sends
(`mushaf_uuid` and `account_uuid`, both possibly `None`). -/
inductive Request where
  | postLogin : Request
  | postUsers : Request
  | getMushafs : Request
  | postTakhtits : Option String → Option String → Request
  | postMushafImport : String → Request
  | postTranslationImport : String → Request
  | postTakhtitImport : String → Request
deriving DecidableEq

/-- The world one invocation of the script runs against: the two credential
files, the canned outcome of each endpoint (the upload endpoints per file
path), the file-system facts the script consults, and the values an
interactive prompt would return. -/
structure Env where
  tokenFile : Option String
  takhtitFile : Option String
  loginResp : Http LoginResp
  userResp : Http UserResp
  mushafsResp : Http MushafsResp
  takhtitResp : Http TakhtitResp
  importResp : Http UploadResp
  mushafUploadResp : String → Http UploadResp
  translationUploadResp : String → Http UploadResp
  isFile : String → Bool
  isDir : String → Bool
  globJson : String → List String
  promptUsername : String
  promptPassword : String

/-- Observable outcome of running an operation (or all of `main`): final
credential-file contents, printed lines, HTTP requests issued in order, and
`some code` iff `sys.exit(code)` was called. -/
structure OpResult where
  tokenFile : Option String
  takhtitFile : Option String
  output : List String
  requests : List Request
  exitCode : Option Nat
deriving DecidableEq

/-- The process exit code: the `sys.exit` argument if one was called,
otherwise 0 (the script falls off the end of `main`). -/
def processExit (r : OpResult) : Nat :=
  r.exitCode.getD 0

/-! ## login -/

/-- `login(api_url, username, password)`.  Prompts fill in missing
credentials; the request either errors (caught: message printed and
`sys.exit(1)`) or returns a response.  On 200 with a truthy `token` field
the token file is overwritten and success is printed; on 200 without one,
or on any other status, a failure message is printed and the function
returns normally (no `sys.exit`). -/
def login (env : Env) (username password : Option String) : OpResult :=
  let _username := username.getD env.promptUsername
  let _password := password.getD env.promptPassword
  match env.loginResp with
  | .err e =>
      { tokenFile := env.tokenFile, takhtitFile := env.takhtitFile,
        output := ["Login error: " ++ e],
        requests := [.postLogin], exitCode := some 1 }
  | .resp r =>
      if r.status = 200 then
        if pyTruthyOpt r.tokenField then
          { tokenFile := write_token_file (r.tokenField.getD ""),
            takhtitFile := env.takhtitFile,
            output := ["Login successful. Token saved."],
            requests := [.postLogin], exitCode := none }
        else
          { tokenFile := env.tokenFile, takhtitFile := env.takhtitFile,
            output := ["Login failed: No token in response."],
            requests := [.postLogin], exitCode := none }
      else
        { tokenFile := env.tokenFile, takhtitFile := env.takhtitFile,
          output := ["Login failed: " ++ toString r.status ++ " " ++ r.text],
          requests := [.postLogin], exitCode := none }

/-! ## create_user / create_takhtit -/

/-- Outcome of a helper that can either return a value to its caller or
terminate the process via `sys.exit`. -/
inductive CallResult (α : Type) where
  | ret : α → CallResult α
  | exit : Nat → CallResult α
deriving DecidableEq

/-- What a call to `create_user` did: printed lines, requests, and whether
it returned (with `json().get("uuid")`, possibly `None`) or exited. -/
structure UserCall where
  output : List String
  requests : List Request
  outcome : CallResult (Option String)
deriving DecidableEq

/-- `create_user(api_url)`: requires a truthy cached token (else prints and
exits 1); POSTs to `/users/`; on 201 returns `json().get("uuid")` as-is
(even when the field is missing); on any other status or a transport error
prints and exits 1. -/
def create_user (env : Env) : UserCall :=
  let token := load_token env.tokenFile
  if pyTruthyOpt token = false then
    { output := ["No token found. Please login first."],
      requests := [], outcome := .exit 1 }
  else
    match env.userResp with
    | .err e =>
        { output := ["Failed to create user: " ++ e],
          requests := [.postUsers], outcome := .exit 1 }
    | .resp r =>
        let echoed := ["Create user response:", toString r.status ++ " " ++ r.text]
        if r.status = 201 then
          { output := echoed ++ ["User created successfully. UUID: " ++ pyShowOpt r.uuid],
            requests := [.postUsers], outcome := .ret r.uuid }
        else
          { output := echoed ++ ["Failed to create user."],
            requests := [.postUsers], outcome := .exit 1 }

/-- The linear scan of `create_takhtit`: the `uuid` field of the first
mushaf whose `short_name` equals "hafs" (that field itself may be `None`),
or `None` when no entry matches. -/
def findHafs : List Mushaf → Option String
  | [] => none
  | m :: ms => if m.short_name = some "hafs" then m.uuid else findHafs ms

/-- `create_takhtit(api_url)`: requires a truthy cached token; calls
`create_user` (propagating its `sys.exit`), GETs `/mushafs/`, scans for the
"hafs" entry (exit 1 when its uuid is falsy or absent), then POSTs
`{mushaf_uuid, account_uuid}` to `/takhtits/`.  On 201 with a truthy `uuid`
the takhtit file is overwritten; on 201 without one only a warning is
printed; on any other status or transport error it prints and exits 1. -/
def create_takhtit (env : Env) : OpResult :=
  let token := load_token env.tokenFile
  if pyTruthyOpt token = false then
    { tokenFile := env.tokenFile, takhtitFile := env.takhtitFile,
      output := ["No token found. Please login first."],
      requests := [], exitCode := some 1 }
  else
    let uc := create_user env
    match uc.outcome with
    | .exit n =>
        { tokenFile := env.tokenFile, takhtitFile := env.takhtitFile,
          output := uc.output, requests := uc.requests, exitCode := some n }
    | .ret account_uuid =>
        match env.mushafsResp with
        | .err e =>
            { tokenFile := env.tokenFile, takhtitFile := env.takhtitFile,
              output := uc.output ++ ["Failed to fetch mushafs: " ++ e],
              requests := uc.requests ++ [.getMushafs], exitCode := some 1 }
        | .resp mr =>
            if mr.status ≠ 200 then
              { tokenFile := env.tokenFile, takhtitFile := env.takhtitFile,
                output := uc.output ++
                  ["Failed to fetch mushafs: " ++ toString mr.status ++ " " ++ mr.text],
                requests := uc.requests ++ [.getMushafs], exitCode := some 1 }
            else
              let hafs_uuid := findHafs mr.mushafs
              if pyTruthyOpt hafs_uuid = false then
                { tokenFile := env.tokenFile, takhtitFile := env.takhtitFile,
                  output := uc.output ++ ["Could not find Mushaf with short_name 'hafs'."],
                  requests := uc.requests ++ [.getMushafs], exitCode := some 1 }
              else
                match env.takhtitResp with
                | .err e =>
                    { tokenFile := env.tokenFile, takhtitFile := env.takhtitFile,
                      output := uc.output ++ ["Failed to create Takhtit: " ++ e],
                      requests := uc.requests ++
                        [.getMushafs, .postTakhtits hafs_uuid account_uuid],
                      exitCode := some 1 }
                | .resp tr =>
                    let echoed := uc.output ++
                      ["Create Takhtit response:", toString tr.status ++ " " ++ tr.text]
                    if tr.status = 201 then
                      if pyTruthyOpt tr.uuid then
                        { tokenFile := env.tokenFile,
                          takhtitFile := save_takhtit_uuid (tr.uuid.getD ""),
                          output := echoed ++
                            ["Takhtit created successfully. UUID: " ++ pyShowOpt tr.uuid,
                             "Takhtit UUID saved to ~/.importer_takhtit_uuid"],
                          requests := uc.requests ++
                            [.getMushafs, .postTakhtits hafs_uuid account_uuid],
                          exitCode := none }
                      else
                        { tokenFile := env.tokenFile, takhtitFile := env.takhtitFile,
                          output := echoed ++ ["Takhtit created but no UUID in response."],
                          requests := uc.requests ++
                            [.getMushafs, .postTakhtits hafs_uuid account_uuid],
                          exitCode := none }
                    else
                      { tokenFile := env.tokenFile, takhtitFile := env.takhtitFile,
                        output := echoed ++ ["Failed to create Takhtit."],
                        requests := uc.requests ++
                          [.getMushafs, .postTakhtits hafs_uuid account_uuid],
                        exitCode := some 1 }

/-! ## import_takhtit -/

/-- `import_takhtit(file_path, type_name, api_url)`: checks, in order, a
truthy cached token, a truthy cached takhtit uuid, and that the file
exists — each failure prints and exits 1 before any request.  Then POSTs
the file; success is status 200 or 201, anything else (or a transport
error) exits 1. -/
def import_takhtit (env : Env) (file_path _type_name : String) : OpResult :=
  let token := load_token env.tokenFile
  if pyTruthyOpt token = false then
    { tokenFile := env.tokenFile, takhtitFile := env.takhtitFile,
      output := ["No token found. Please login first."],
      requests := [], exitCode := some 1 }
  else
    let uuid := load_takhtit_uuid env.takhtitFile
    if pyTruthyOpt uuid = false then
      { tokenFile := env.tokenFile, takhtitFile := env.takhtitFile,
        output := ["No takhtit UUID found. Please create a takhtit first."],
        requests := [], exitCode := some 1 }
    else
      if env.isFile file_path = false then
        { tokenFile := env.tokenFile, takhtitFile := env.takhtitFile,
          output := ["File not found: " ++ file_path],
          requests := [], exitCode := some 1 }
      else
        match env.importResp with
        | .err e =>
            { tokenFile := env.tokenFile, takhtitFile := env.takhtitFile,
              output := ["Failed to import file: " ++ e],
              requests := [.postTakhtitImport file_path], exitCode := some 1 }
        | .resp r =>
            let echoed := ["Import response:", toString r.status ++ " " ++ r.text]
            if r.status = 200 ∨ r.status = 201 then
              { tokenFile := env.tokenFile, takhtitFile := env.takhtitFile,
                output := echoed,
                requests := [.postTakhtitImport file_path], exitCode := none }
            else
              { tokenFile := env.tokenFile, takhtitFile := env.takhtitFile,
                output := echoed ++
                  ["Import failed with status code: " ++ toString r.status],
                requests := [.postTakhtitImport file_path], exitCode := some 1 }

/-! ## Command dispatcher (`main`) -/

/-- Indexing into the argument vector, `args[i]` (total, defaulting to the
empty string; every use in the dispatcher is guarded by a length check). -/
def argD (args : List String) (i : Nat) : String :=
  args.getD i ""

/-- The per-command usage lines the dispatcher prints on arity mismatch. -/
def loginUsageNI : String :=
  "Usage: python script.py login <api_url> <username> <password> --non-interactive"

/-- Usage line for `login` without the non-interactive flag. -/
def loginUsage : String :=
  "Usage: python script.py login <api_url> [username password] [--non-interactive]"

/-- Usage line for `import-mushaf`. -/
def mushafUsage : String :=
  "Usage: python script.py import-mushaf <input_json_file> <api_url>"

/-- Usage line for `import-translations`. -/
def translationsUsage : String :=
  "Usage: python script.py import-translations <translations_dir> <api_url>"

/-- Usage line for `import-translation`. -/
def translationUsage : String :=
  "Usage: python script.py import-translation <input_json_file> <api_url>"

/-- Usage line for `create-takhtit`. -/
def createTakhtitUsage : String :=
  "Usage: python script.py create-takhtit <api_url>"

/-- Usage line for `import-takhtit`. -/
def importTakhtitUsage : String :=
  "Usage: python script.py import-takhtit <json_file> <type> <api_url>"

/-- All usage lines a single arity-mismatch branch can print. -/
def usageMsgs : List String :=
  [loginUsageNI, loginUsage, mushafUsage, translationsUsage, translationUsage,
   createTakhtitUsage, importTakhtitUsage]

/-- Print one usage line and `sys.exit(1)` without touching anything else. -/
def usageExit (env : Env) (msg : String) : OpResult :=
  { tokenFile := env.tokenFile, takhtitFile := env.takhtitFile,
    output := [msg], requests := [], exitCode := some 1 }

/-- The `login` branch of `main`: with `--non-interactive` present the flag
is removed (first occurrence, as `args[:i] + args[i+1:]`) and exactly five
remaining arguments are required; otherwise three (prompt for credentials)
or five arguments are accepted. -/
def mainLogin (env : Env) (args : List String) : OpResult :=
  if args.contains "--non-interactive" then
    let args_wo_flag := args.erase "--non-interactive"
    if args_wo_flag.length ≠ 5 then usageExit env loginUsageNI
    else login env (some (argD args_wo_flag 3)) (some (argD args_wo_flag 4))
  else
    if args.length = 3 then login env none none
    else if args.length = 5 then
      login env (some (argD args 3)) (some (argD args 4))
    else usageExit env loginUsage

/-- Shared body of `import-mushaf` and `import-translation`: arity 4, the
input file must exist and end in `.json`, then one upload; status outside
200/201 (or a transport error) exits 1. -/
def mainSingleImport (env : Env) (args : List String) (usage : String)
    (respOf : String → Http UploadResp) (mkReq : String → Request) : OpResult :=
  if args.length ≠ 4 then usageExit env usage
  else
    let input_file := argD args 2
    if env.isFile input_file = false then
      { tokenFile := env.tokenFile, takhtitFile := env.takhtitFile,
        output := ["Error: File '" ++ input_file ++ "' does not exist."],
        requests := [], exitCode := some 1 }
    else if (input_file.endsWith ".json") = false then
      { tokenFile := env.tokenFile, takhtitFile := env.takhtitFile,
        output := ["Error: Input file must be a .json file."],
        requests := [], exitCode := some 1 }
    else
      match respOf input_file with
      | .err e =>
          { tokenFile := env.tokenFile, takhtitFile := env.takhtitFile,
            output := ["Failed to send file: " ++ e],
            requests := [mkReq input_file], exitCode := some 1 }
      | .resp r =>
          if r.status = 200 ∨ r.status = 201 then
            { tokenFile := env.tokenFile, takhtitFile := env.takhtitFile,
              output := ["Status code: " ++ toString r.status, "Response: " ++ r.text],
              requests := [mkReq input_file], exitCode := none }
          else
            { tokenFile := env.tokenFile, takhtitFile := env.takhtitFile,
              output := ["Status code: " ++ toString r.status,
                         "Import failed with status code: " ++ toString r.status],
              requests := [mkReq input_file], exitCode := some 1 }

/-- Was this upload outcome counted as a success (status 200 or 201)?
A transport error or any other status counts as a failure. -/
def uploadOk : Http UploadResp → Bool
  | .resp r => r.status = 200 || r.status = 201
  | .err _ => false

/-- The `for file_path in json_files` loop of `import-translations`:
returns (success count, failure count, requests issued in order).  Every
file in the list is attempted; failures never break the loop. -/
def translationsLoop (env : Env) : List String → Nat × Nat × List Request
  | [] => (0, 0, [])
  | fp :: rest =>
      let step : Nat × Nat := if uploadOk (env.translationUploadResp fp) then (1, 0) else (0, 1)
      let acc := translationsLoop env rest
      (step.1 + acc.1, step.2 + acc.2.1, .postTranslationImport fp :: acc.2.2)

/-- The `import-translations` branch of `main`: arity 4, directory must
exist, `glob` must find at least one `.json` file (else exit 1 before any
upload), then the loop runs over every file and the process exits 1 iff at
least one file failed. -/
def mainImportTranslations (env : Env) (args : List String) : OpResult :=
  if args.length ≠ 4 then usageExit env translationsUsage
  else
    let translations_dir := argD args 2
    if env.isDir translations_dir = false then
      { tokenFile := env.tokenFile, takhtitFile := env.takhtitFile,
        output := ["Error: Directory '" ++ translations_dir ++ "' does not exist."],
        requests := [], exitCode := some 1 }
    else
      let json_files := env.globJson translations_dir
      if json_files.isEmpty then
        { tokenFile := env.tokenFile, takhtitFile := env.takhtitFile,
          output := ["No .json files found in directory '" ++ translations_dir ++ "'."],
          requests := [], exitCode := some 1 }
      else
        let acc := translationsLoop env json_files
        { tokenFile := env.tokenFile, takhtitFile := env.takhtitFile,
          output := ["Import Summary: " ++ toString acc.1 ++ " successful, " ++
                     toString acc.2.1 ++ " failed"],
          requests := acc.2.2,
          exitCode := if acc.2.1 > 0 then some 1 else none }

/-- The generic usage block printed when no command is given. -/
def genericUsage : List String :=
  ["Usage: python script.py <command> [args...]",
   "Commands:",
   "  login <api_url> [username password] [--non-interactive]",
   "  import-mushaf <input_json_file> <api_url>",
   "  import-translations <translations_dir> <api_url>",
   "  import-translation <input_json_file> <api_url>",
   "  create-takhtit <api_url>",
   "  import-takhtit <json_file> <type> <api_url>"]

/-- `main(args)` (`args[0]` is the program name): dispatch on `args[1]`,
checking arity per command before any other work; unknown commands print a
message and exit 1. -/
def main (env : Env) (args : List String) : OpResult :=
  if args.length < 2 then
    { tokenFile := env.tokenFile, takhtitFile := env.takhtitFile,
      output := genericUsage, requests := [], exitCode := some 1 }
  else
    let command := argD args 1
    if command = "login" then mainLogin env args
    else if command = "import-mushaf" then
      mainSingleImport env args mushafUsage env.mushafUploadResp .postMushafImport
    else if command = "import-translations" then mainImportTranslations env args
    else if command = "import-translation" then
      mainSingleImport env args translationUsage env.translationUploadResp
        .postTranslationImport
    else if command = "create-takhtit" then
      if args.length ≠ 3 then usageExit env createTakhtitUsage
      else create_takhtit env
    else if command = "import-takhtit" then
      if args.length ≠ 5 then usageExit env importTakhtitUsage
      else import_takhtit env (argD args 2) (argD args 3)
    else
      { tokenFile := env.tokenFile, takhtitFile := env.takhtitFile,
        output := ["Unknown command: " ++ command],
        requests := [], exitCode := some 1 }

/-- Does the dispatcher recognise this command name? -/
def knownCommand (c : String) : Bool :=
  c = "login" || c = "import-mushaf" || c = "import-translations" ||
  c = "import-translation" || c = "create-takhtit" || c = "import-takhtit"

/-- The argument counts each command accepts, read off the dispatcher:
`login` accepts 3 or 5 arguments (5 after removing the flag when
`--non-interactive` is present), the import/create commands a fixed count. -/
def arityOk (args : List String) : Bool :=
  let c := argD args 1
  if c = "login" then
    if args.contains "--non-interactive" then (args.erase "--non-interactive").length = 5
    else args.length = 3 || args.length = 5
  else if c = "import-mushaf" then args.length = 4
  else if c = "import-translations" then args.length = 4
  else if c = "import-translation" then args.length = 4
  else if c = "create-takhtit" then args.length = 3
  else if c = "import-takhtit" then args.length = 5
  else false

/-- A fixed benign environment used to instantiate theorems at concrete
inputs: no cached files, every endpoint unreachable, an empty file system. -/
def env0 : Env :=
  { tokenFile := none, takhtitFile := none,
    loginResp := .err "down", userResp := .err "down",
    mushafsResp := .err "down", takhtitResp := .err "down",
    importResp := .err "down",
    mushafUploadResp := fun _ => .err "down",
    translationUploadResp := fun _ => .err "down",
    isFile := fun _ => false, isDir := fun _ => false,
    globJson := fun _ => [],
    promptUsername := "user", promptPassword := "pass" }

/-! ## Helper lemmas -/

/-- `None` is falsy. -/
theorem pyTruthyOpt_none : pyTruthyOpt none = false := rfl

/-- A `secrets.choice` from a nonempty sequence is an element of it. -/
theorem pyChoice_mem (seq : List Char) (h : seq ≠ []) (r : Nat) :
    pyChoice seq r ∈ seq := by
  unfold pyChoice
  have hl : 0 < seq.length := List.length_pos.mpr h
  have hm : r % seq.length < seq.length := Nat.mod_lt _ hl
  rw [List.getD_eq_getElem?_getD, List.getElem?_eq_getElem hm, Option.getD_some]
  exact List.getElem_mem hm

/-- Stripping a string made only of whitespace yields the empty string. -/
theorem pyStrip_all_space (s : String) (h : s.toList.all isPySpace = true) :
    pyStrip s = "" := by
  unfold pyStrip
  have h1 : s.toList.dropWhile isPySpace = [] := by
    rw [List.dropWhile_eq_nil_iff]
    intro x hx
    exact List.all_eq_true.mp h x hx
  rw [h1]
  rfl

/-- When no mushaf entry has `short_name == "hafs"`, the scan yields `None`. -/
theorem findHafs_eq_none (l : List Mushaf) (h : ∀ m ∈ l, m.short_name ≠ some "hafs") :
    findHafs l = none := by
  induction l with
  | nil => rfl
  | cons m ms ih =>
      have hm := h m (List.mem_cons_self m ms)
      simp only [findHafs, if_neg hm]
      exact ih fun x hx => h x (List.mem_cons_of_mem m hx)

/-- The translations loop counts exactly the successful and the failed
uploads and issues one request per file, in list order. -/
theorem translationsLoop_spec (env : Env) (files : List String) :
    (translationsLoop env files).1 =
      files.countP (fun fp => uploadOk (env.translationUploadResp fp)) ∧
    (translationsLoop env files).2.1 =
      files.countP (fun fp => !uploadOk (env.translationUploadResp fp)) ∧
    (translationsLoop env files).2.2 = files.map Request.postTranslationImport := by
  induction files with
  | nil => simp [translationsLoop]
  | cons fp rest ih =>
      obtain ⟨ih1, ih2, ih3⟩ := ih
      cases hu : uploadOk (env.translationUploadResp fp) <;>
        simp [translationsLoop, hu, ih1, ih2, ih3, List.countP_cons, Nat.add_comm]

/-! ## Claim theorems -/

/-- Claim C3: for every requested length `n` and every outcome of the
random choices (any choice oracle, any permutation for the shuffle), the
generated password has length `n` when `n ≥ 8` and length exactly 8 when
`n < 8`, and it contains at least one lowercase letter, one uppercase
letter, one digit, and one symbol from the fixed set "-_@#$%". -/
theorem generate_strong_password_spec (rand : Nat → Nat)
    (shuffle : List Char → List Char) (hs : ∀ l, List.Perm (shuffle l) l) (n : Int) :
    ((8 ≤ n → (generate_strong_password rand shuffle n).length = n.toNat) ∧
     (n < 8 → (generate_strong_password rand shuffle n).length = 8)) ∧
    (∃ c ∈ (generate_strong_password rand shuffle n).data, c ∈ asciiLowercase) ∧
    (∃ c ∈ (generate_strong_password rand shuffle n).data, c ∈ asciiUppercase) ∧
    (∃ c ∈ (generate_strong_password rand shuffle n).data, c ∈ digitChars) ∧
    (∃ c ∈ (generate_strong_password rand shuffle n).data, c ∈ symbolChars) := by
  unfold generate_strong_password
  have hlen8 : (8 : Nat) ≤ (if n < 8 then 8 else n.toNat) := by
    split
    · exact le_refl 8
    · omega
  have hchars : ∀ len : Nat, 8 ≤ len →
      ([pyChoice asciiLowercase (rand 0), pyChoice asciiUppercase (rand 1),
        pyChoice digitChars (rand 2), pyChoice symbolChars (rand 3)] ++
       (List.range (len - 4)).map (fun i => pyChoice passwordAlphabet (rand (4 + i)))).length
      = len := by
    intro len hl
    simp only [List.length_append, List.length_map, List.length_range,
      List.length_cons, List.length_nil]
    omega
  refine ⟨⟨?_, ?_⟩, ?_, ?_, ?_, ?_⟩
  · intro h8
    have : ¬ n < 8 := by omega
    show (shuffle _).length = n.toNat
    rw [(hs _).length_eq, hchars _ (by rw [if_neg this] at hlen8 ⊢; exact hlen8)]
    rw [if_neg this]
  · intro h8
    show (shuffle _).length = 8
    rw [(hs _).length_eq, hchars _ (by rw [if_pos h8]), if_pos h8]
  · exact ⟨pyChoice asciiLowercase (rand 0),
      (hs _).mem_iff.mpr (by simp),
      pyChoice_mem asciiLowercase (by decide) (rand 0)⟩
  · exact ⟨pyChoice asciiUppercase (rand 1),
      (hs _).mem_iff.mpr (by simp),
      pyChoice_mem asciiUppercase (by decide) (rand 1)⟩
  · exact ⟨pyChoice digitChars (rand 2),
      (hs _).mem_iff.mpr (by simp),
      pyChoice_mem digitChars (by decide) (rand 2)⟩
  · exact ⟨pyChoice symbolChars (rand 3),
      (hs _).mem_iff.mpr (by simp),
      pyChoice_mem symbolChars (by decide) (rand 3)⟩

/-- Claim C3 witness: the contract instantiated with the identity shuffle,
the constant-zero choice oracle and requested length 16. -/
theorem generate_strong_password_spec_witness :
    ((8 ≤ (16 : Int) →
        (generate_strong_password (fun _ => 0) id 16).length = (16 : Int).toNat) ∧
     ((16 : Int) < 8 → (generate_strong_password (fun _ => 0) id 16).length = 8)) ∧
    (∃ c ∈ (generate_strong_password (fun _ => 0) id 16).data, c ∈ asciiLowercase) ∧
    (∃ c ∈ (generate_strong_password (fun _ => 0) id 16).data, c ∈ asciiUppercase) ∧
    (∃ c ∈ (generate_strong_password (fun _ => 0) id 16).data, c ∈ digitChars) ∧
    (∃ c ∈ (generate_strong_password (fun _ => 0) id 16).data, c ∈ symbolChars) :=
  generate_strong_password_spec (fun _ => 0) id (fun l => List.Perm.refl l) 16

/-- Claim C7: writing a string to the token file (as `login` does) or to
the takhtit-uuid file (as `save_takhtit_uuid` does) and loading it back
returns the identical trimmed string; loading either credential before
anything was saved (file absent) returns the absent value. -/
theorem credential_store_roundtrip (s : String) :
    load_token (write_token_file s) = some (pyStrip s) ∧
    load_takhtit_uuid (save_takhtit_uuid s) = some (pyStrip s) ∧
    load_token none = none ∧
    load_takhtit_uuid none = none :=
  ⟨rfl, rfl, rfl, rfl⟩

/-- Claim C1 counterexample: a login invocation that receives HTTP 500
reports failure but does NOT terminate the process with a non-zero exit
code — `login` returns normally and the process exit code is 0, refuting
the claim that every non-200 status terminates the process non-zero. -/
theorem login_non200_process_exits_zero :
    (login { env0 with
        loginResp := .resp { status := 500, text := "oops", tokenField := none } }
      none none).output = ["Login failed: 500 oops"] ∧
    (login { env0 with
        loginResp := .resp { status := 500, text := "oops", tokenField := none } }
      none none).exitCode = none ∧
    processExit (login { env0 with
        loginResp := .resp { status := 500, text := "oops", tokenField := none } }
      none none) = 0 := by
  refine ⟨by decide, rfl, rfl⟩

/-- Claim C1 (amended): on a transport error `login` exits with code 1; on
a non-200 status, or a 200 response without a truthy `token` field, it
reports failure (prints a failure message) and leaves the token file
unchanged, but returns normally, so the process exit code is 0 rather than
non-zero. -/
theorem login_failure_contract (env : Env) (u p : Option String) :
    (∀ e, env.loginResp = .err e →
      (login env u p).output = ["Login error: " ++ e] ∧
      (login env u p).exitCode = some 1 ∧
      processExit (login env u p) = 1 ∧
      (login env u p).tokenFile = env.tokenFile) ∧
    (∀ r, env.loginResp = .resp r → r.status ≠ 200 →
      (login env u p).output = ["Login failed: " ++ toString r.status ++ " " ++ r.text] ∧
      (login env u p).exitCode = none ∧
      processExit (login env u p) = 0 ∧
      (login env u p).tokenFile = env.tokenFile) ∧
    (∀ r, env.loginResp = .resp r → r.status = 200 → pyTruthyOpt r.tokenField = false →
      (login env u p).output = ["Login failed: No token in response."] ∧
      (login env u p).exitCode = none ∧
      processExit (login env u p) = 0 ∧
      (login env u p).tokenFile = env.tokenFile) := by
  refine ⟨?_, ?_, ?_⟩
  · intro e he
    simp [login, he, processExit]
  · intro r hr hst
    simp [login, hr, hst, processExit]
  · intro r hr hst htk
    simp [login, hr, hst, htk, processExit]

/-- Claim C1 witness: the amended contract applied to a concrete transport
error. -/
theorem login_failure_contract_witness :
    (login { env0 with loginResp := .err "boom" } none none).output =
      ["Login error: " ++ "boom"] ∧
    (login { env0 with loginResp := .err "boom" } none none).exitCode = some 1 ∧
    processExit (login { env0 with loginResp := .err "boom" } none none) = 1 ∧
    (login { env0 with loginResp := .err "boom" } none none).tokenFile =
      ({ env0 with loginResp := Http.err "boom" } : Env).tokenFile :=
  (login_failure_contract { env0 with loginResp := .err "boom" } none none).1 "boom" rfl

/-- Claim C4: when `login` receives a 200 response whose JSON body lacks a
`token` field, no token is persisted: the token file after the call equals
the file before the call (in particular an absent file stays absent), and
the failure is reported. -/
theorem login_missing_token_preserves_token_file (env : Env) (u p : Option String)
    (r : LoginResp) (hr : env.loginResp = .resp r) (h200 : r.status = 200)
    (htk : r.tokenField = none) :
    (login env u p).tokenFile = env.tokenFile ∧
    (login env u p).output = ["Login failed: No token in response."] := by
  simp [login, hr, h200, htk, pyTruthyOpt]

/-- A concrete environment with a cached token file and a 200 login
response whose body has no `token` field. -/
def envNoTokenField : Env :=
  { env0 with
    tokenFile := some "old"
    loginResp := .resp { status := 200, text := "{}", tokenField := none } }

/-- Claim C4 witness: a concrete 200-without-token login against a cached
token file; the file survives unchanged. -/
theorem login_missing_token_preserves_token_file_witness :
    (login envNoTokenField none none).tokenFile = envNoTokenField.tokenFile ∧
    (login envNoTokenField none none).output =
      ["Login failed: No token in response."] :=
  login_missing_token_preserves_token_file envNoTokenField none none
    { status := 200, text := "{}", tokenField := none } rfl rfl rfl

/-- Claim C5: when every stage up to the mushaf scan succeeds but the
fetched list has no entry with `short_name == "hafs"`, `create_takhtit`
exits 1 having issued only the user-creation POST and the mushaf GET — no
POST to `/takhtits/` — and the cached takhtit identifier is unchanged. -/
theorem create_takhtit_missing_hafs_fails_before_post (env : Env) (ur : UserResp)
    (mr : MushafsResp)
    (htok : pyTruthyOpt (load_token env.tokenFile) = true)
    (hu : env.userResp = .resp ur) (h201 : ur.status = 201)
    (hm : env.mushafsResp = .resp mr) (h200 : mr.status = 200)
    (hnone : ∀ m ∈ mr.mushafs, m.short_name ≠ some "hafs") :
    (create_takhtit env).exitCode = some 1 ∧
    (create_takhtit env).requests = [Request.postUsers, Request.getMushafs] ∧
    (create_takhtit env).takhtitFile = env.takhtitFile := by
  have hfh := findHafs_eq_none mr.mushafs hnone
  simp [create_takhtit, create_user, htok, hu, h201, hm, h200, hfh, pyTruthyOpt_none]

/-- A concrete environment in which login, user creation and the mushaf
fetch succeed but the mushaf list has no "hafs" entry. -/
def envNoHafs : Env :=
  { env0 with
    tokenFile := some "tok"
    userResp := .resp { status := 201, text := "{}", uuid := some "acc-1" }
    mushafsResp := .resp
      { status := 200
        text := "[]"
        mushafs := [{ short_name := some "warsh", uuid := some "m-1" }] } }

/-- Claim C5 witness: the no-hafs failure at the concrete environment. -/
theorem create_takhtit_missing_hafs_witness :
    (create_takhtit envNoHafs).exitCode = some 1 ∧
    (create_takhtit envNoHafs).requests = [Request.postUsers, Request.getMushafs] ∧
    (create_takhtit envNoHafs).takhtitFile = envNoHafs.takhtitFile :=
  create_takhtit_missing_hafs_fails_before_post envNoHafs
    { status := 201, text := "{}", uuid := some "acc-1" }
    { status := 200
      text := "[]"
      mushafs := [{ short_name := some "warsh", uuid := some "m-1" }] }
    (by decide) (by rfl) (by rfl) (by rfl) (by rfl) (by decide)

/-- Claim C6: whenever the cached takhtit identifier is absent (or falsy
after trimming), `import_takhtit` exits 1 without issuing any HTTP
request, whatever the state of the cached token. -/
theorem import_takhtit_missing_uuid_fails_before_network (env : Env)
    (fp ty : String)
    (h : pyTruthyOpt (load_takhtit_uuid env.takhtitFile) = false) :
    (import_takhtit env fp ty).exitCode = some 1 ∧
    (import_takhtit env fp ty).requests = [] := by
  cases hx : pyTruthyOpt (load_token env.tokenFile) <;>
    simp [import_takhtit, hx, h]

/-- A concrete environment with a cached token but no cached takhtit
identifier. -/
def envTokenOnly : Env :=
  { env0 with tokenFile := some "tok" }

/-- Claim C6 witness: with a token cached and no takhtit identifier, the
operation exits 1 with no request. -/
theorem import_takhtit_missing_uuid_witness :
    (import_takhtit envTokenOnly "file.json" "page").exitCode = some 1 ∧
    (import_takhtit envTokenOnly "file.json" "page").requests = [] :=
  import_takhtit_missing_uuid_fails_before_network envTokenOnly "file.json" "page" rfl

/-- Claim C9: a 201 user-creation response whose body lacks a `uuid` field
makes `create_user` return the absent value without exiting or failing,
and `create_takhtit` then still POSTs to `/takhtits/` with `account_uuid`
set to that absent value. -/
theorem create_user_missing_uuid_propagates_none (env : Env) (ur : UserResp)
    (mr : MushafsResp)
    (htok : pyTruthyOpt (load_token env.tokenFile) = true)
    (hu : env.userResp = .resp ur) (h201 : ur.status = 201) (huuid : ur.uuid = none)
    (hm : env.mushafsResp = .resp mr) (h200 : mr.status = 200)
    (hhafs : pyTruthyOpt (findHafs mr.mushafs) = true) :
    (create_user env).outcome = CallResult.ret none ∧
    (create_takhtit env).requests =
      [Request.postUsers, Request.getMushafs,
       Request.postTakhtits (findHafs mr.mushafs) none] := by
  constructor
  · simp [create_user, htok, hu, h201, huuid]
  · cases ht : env.takhtitResp with
    | err e =>
        simp [create_takhtit, create_user, htok, hu, h201, huuid, hm, h200, hhafs, ht]
    | resp tr =>
        by_cases h2 : tr.status = 201
        · cases h3 : pyTruthyOpt tr.uuid <;>
            simp [create_takhtit, create_user, htok, hu, h201, huuid, hm, h200,
              hhafs, ht, h2, h3]
        · simp [create_takhtit, create_user, htok, hu, h201, huuid, hm, h200,
            hhafs, ht, h2]

/-- A concrete environment whose 201 user-creation response has no `uuid`
field and whose mushaf list does contain a "hafs" entry. -/
def envNoUserUuid : Env :=
  { env0 with
    tokenFile := some "tok"
    userResp := .resp { status := 201, text := "{}", uuid := none }
    mushafsResp := .resp
      { status := 200
        text := "[]"
        mushafs := [{ short_name := some "hafs", uuid := some "m-1" }] } }

/-- Claim C9 witness: the absent account identifier flows into the
`/takhtits/` POST at the concrete environment. -/
theorem create_user_missing_uuid_witness :
    (create_user envNoUserUuid).outcome = CallResult.ret none ∧
    (create_takhtit envNoUserUuid).requests =
      [Request.postUsers, Request.getMushafs,
       Request.postTakhtits (some "m-1") none] :=
  create_user_missing_uuid_propagates_none envNoUserUuid
    { status := 201, text := "{}", uuid := none }
    { status := 200
      text := "[]"
      mushafs := [{ short_name := some "hafs", uuid := some "m-1" }] }
    (by decide) (by rfl) (by rfl) (by rfl) (by rfl) (by rfl) (by decide)

/-- Claim C10: a cached token file holding only whitespace behaves exactly
like an absent file: `load_token`'s result is falsy after trimming, and
`create_user`, `create_takhtit` and `import_takhtit` all exit 1 with the
not-logged-in message before any HTTP request. -/
theorem whitespace_token_treated_as_absent (env : Env) (ws fp ty : String)
    (hfile : env.tokenFile = some ws) (hws : ws.toList.all isPySpace = true) :
    pyTruthyOpt (load_token env.tokenFile) = false ∧
    (create_user env).outcome = CallResult.exit 1 ∧
    (create_user env).output = ["No token found. Please login first."] ∧
    (create_user env).requests = [] ∧
    (create_takhtit env).exitCode = some 1 ∧
    (create_takhtit env).output = ["No token found. Please login first."] ∧
    (create_takhtit env).requests = [] ∧
    (import_takhtit env fp ty).exitCode = some 1 ∧
    (import_takhtit env fp ty).output = ["No token found. Please login first."] ∧
    (import_takhtit env fp ty).requests = [] := by
  have hstrip := pyStrip_all_space ws hws
  have hfalsy : pyTruthyOpt (load_token env.tokenFile) = false := by
    simp [hfile, load_token, hstrip, pyTruthyOpt]
  refine ⟨hfalsy, ?_, ?_, ?_, ?_, ?_, ?_, ?_, ?_, ?_⟩ <;>
    simp [create_user, create_takhtit, import_takhtit, hfalsy]

/-- A concrete environment whose token file holds only whitespace. -/
def envBlankToken : Env :=
  { env0 with tokenFile := some "  \n\t " }

/-- Claim C10 witness: the whitespace-only token file at a concrete
environment. -/
theorem whitespace_token_witness :
    pyTruthyOpt (load_token envBlankToken.tokenFile) = false ∧
    (create_user envBlankToken).outcome = CallResult.exit 1 ∧
    (create_user envBlankToken).output = ["No token found. Please login first."] ∧
    (create_user envBlankToken).requests = [] ∧
    (create_takhtit envBlankToken).exitCode = some 1 ∧
    (create_takhtit envBlankToken).output = ["No token found. Please login first."] ∧
    (create_takhtit envBlankToken).requests = [] ∧
    (import_takhtit envBlankToken "f.json" "page").exitCode = some 1 ∧
    (import_takhtit envBlankToken "f.json" "page").output =
      ["No token found. Please login first."] ∧
    (import_takhtit envBlankToken "f.json" "page").requests = [] :=
  whitespace_token_treated_as_absent envBlankToken "  \n\t " "f.json" "page"
    rfl (by decide)

/-- Claim C2: a run of `import-translations` on an existing directory
exits 1 with no upload attempted when the directory holds no `.json`
files; otherwise it issues exactly one upload per `.json` file, in order
(failures do not stop later files), and the process exits non-zero iff at
least one upload failed (non-2xx status or transport error). -/
theorem import_translations_batch_contract (env : Env) (args : List String)
    (hc : argD args 1 = "import-translations") (hlen : args.length = 4)
    (hdir : env.isDir (argD args 2) = true) :
    (env.globJson (argD args 2) = [] →
      (main env args).exitCode = some 1 ∧ (main env args).requests = []) ∧
    (env.globJson (argD args 2) ≠ [] →
      (main env args).requests =
        (env.globJson (argD args 2)).map Request.postTranslationImport ∧
      processExit (main env args) =
        (if (env.globJson (argD args 2)).any
            (fun fp => !uploadOk (env.translationUploadResp fp)) then 1 else 0)) := by
  have h2 : ¬ (args.length < 2) := by omega
  have hmain : main env args = mainImportTranslations env args := by
    simp [main, h2, hc]
  constructor
  · intro hempty
    simp [hmain, mainImportTranslations, hlen, hdir, hempty]
  · intro hne
    obtain ⟨h1, hfail, hreq⟩ := translationsLoop_spec env (env.globJson (argD args 2))
    have hisE : (env.globJson (argD args 2)).isEmpty = false := by
      rcases hx : env.globJson (argD args 2) with _ | ⟨a, l⟩
      · exact absurd hx hne
      · rfl
    refine ⟨?_, ?_⟩
    · simp [hmain, mainImportTranslations, hlen, hdir, hisE, hreq]
    · rcases hany : (env.globJson (argD args 2)).any
          (fun fp => !uploadOk (env.translationUploadResp fp)) with _ | _
      · have hzero : (env.globJson (argD args 2)).countP
            (fun fp => !uploadOk (env.translationUploadResp fp)) = 0 := by
          rw [List.countP_eq_zero]
          exact List.any_eq_false.mp hany
        simp [hmain, mainImportTranslations, hlen, hdir, hisE, processExit,
          hfail, hzero]
      · have hpos : 0 < (env.globJson (argD args 2)).countP
            (fun fp => !uploadOk (env.translationUploadResp fp)) :=
          List.countP_pos_iff.mpr (List.any_eq_true.mp hany)
        simp [hmain, mainImportTranslations, hlen, hdir, hisE, processExit,
          hfail, hpos]

/-- A concrete environment for the batch import: a directory with three
JSON files of which exactly one upload fails with HTTP 500. -/
def envBatch : Env :=
  { env0 with
    isDir := fun _ => true
    globJson := fun _ => ["a.json", "b.json", "c.json"]
    translationUploadResp := fun fp =>
      if fp = "b.json" then .resp { status := 500, text := "err" }
      else .resp { status := 200, text := "ok" } }

/-- The argument vector of the concrete batch run. -/
def batchArgs : List String := ["script.py", "import-translations", "dir", "url"]

/-- Claim C2 witness: three files, one failing upload — all three are
attempted, in order, and the process exits 1. -/
theorem import_translations_batch_witness :
    ((main envBatch batchArgs).requests =
      (envBatch.globJson (argD batchArgs 2)).map Request.postTranslationImport ∧
     processExit (main envBatch batchArgs) =
      (if (envBatch.globJson (argD batchArgs 2)).any
          (fun fp => !uploadOk (envBatch.translationUploadResp fp)) then 1 else 0)) ∧
    (main envBatch batchArgs).requests =
      [Request.postTranslationImport "a.json", Request.postTranslationImport "b.json",
       Request.postTranslationImport "c.json"] ∧
    processExit (main envBatch batchArgs) = 1 :=
  ⟨(import_translations_batch_contract envBatch batchArgs (by rfl) (by rfl)
      (by rfl)).2 (by decide), by decide, by decide⟩

/-- A usage-and-exit result satisfies the bad-argument contract. -/
theorem usageExit_bad (env : Env) (msg : String) (c : String)
    (hm : msg ∈ usageMsgs) :
    (usageExit env msg).exitCode = some 1 ∧
    (usageExit env msg).requests = [] ∧
    ∃ m, (usageExit env msg).output = [m] ∧
      (m ∈ usageMsgs ∨ m = "Unknown command: " ++ c) :=
  ⟨rfl, rfl, msg, rfl, Or.inl hm⟩

/-- Claim C8: any argument vector with a command whose name the dispatcher
does not know, or whose argument count does not match the command's
accepted arities, makes `main` print a single usage (or unknown-command)
line and exit 1 without issuing any HTTP request. -/
theorem main_rejects_bad_args (env : Env) (args : List String)
    (hlen : 2 ≤ args.length)
    (hbad : knownCommand (argD args 1) = false ∨ arityOk args = false) :
    (main env args).exitCode = some 1 ∧
    (main env args).requests = [] ∧
    ∃ m, (main env args).output = [m] ∧
      (m ∈ usageMsgs ∨ m = "Unknown command: " ++ argD args 1) := by
  have h2 : ¬ (args.length < 2) := by omega
  by_cases hL : argD args 1 = "login"
  · have hA : arityOk args = false := hbad.resolve_left (by simp [knownCommand, hL])
    by_cases hf : "--non-interactive" ∈ args
    · have h6 : args.length ≠ 6 := by
        intro h
        rw [arityOk] at hA
        simp [hL, hf, List.length_erase_of_mem hf, h] at hA
      have hmain : main env args = usageExit env loginUsageNI := by
        simp [main, h2, hL, mainLogin, hf, List.length_erase_of_mem hf, h6]
      rw [hmain]
      exact usageExit_bad env loginUsageNI (argD args 1) (by simp [usageMsgs])
    · have h3 : args.length ≠ 3 := by
        intro h; rw [arityOk] at hA; simp [hL, hf, h] at hA
      have h5 : args.length ≠ 5 := by
        intro h; rw [arityOk] at hA; simp [hL, hf, h] at hA
      have hmain : main env args = usageExit env loginUsage := by
        simp [main, h2, hL, mainLogin, hf, h3, h5]
      rw [hmain]
      exact usageExit_bad env loginUsage (argD args 1) (by simp [usageMsgs])
  by_cases hM : argD args 1 = "import-mushaf"
  · have hA : arityOk args = false := hbad.resolve_left (by simp [knownCommand, hM])
    have h4 : args.length ≠ 4 := by
      intro h; rw [arityOk] at hA; simp [hL, hM, h] at hA
    have hmain : main env args = usageExit env mushafUsage := by
      simp [main, h2, hL, hM, mainSingleImport, h4]
    rw [hmain]
    exact usageExit_bad env mushafUsage (argD args 1) (by simp [usageMsgs])
  by_cases hT : argD args 1 = "import-translations"
  · have hA : arityOk args = false := hbad.resolve_left (by simp [knownCommand, hT])
    have h4 : args.length ≠ 4 := by
      intro h; rw [arityOk] at hA; simp [hL, hM, hT, h] at hA
    have hmain : main env args = usageExit env translationsUsage := by
      simp [main, h2, hL, hM, hT, mainImportTranslations, h4]
    rw [hmain]
    exact usageExit_bad env translationsUsage (argD args 1) (by simp [usageMsgs])
  by_cases hT1 : argD args 1 = "import-translation"
  · have hA : arityOk args = false := hbad.resolve_left (by simp [knownCommand, hT1])
    have h4 : args.length ≠ 4 := by
      intro h; rw [arityOk] at hA; simp [hL, hM, hT, hT1, h] at hA
    have hmain : main env args = usageExit env translationUsage := by
      simp [main, h2, hL, hM, hT, hT1, mainSingleImport, h4]
    rw [hmain]
    exact usageExit_bad env translationUsage (argD args 1) (by simp [usageMsgs])
  by_cases hC : argD args 1 = "create-takhtit"
  · have hA : arityOk args = false := hbad.resolve_left (by simp [knownCommand, hC])
    have h3 : args.length ≠ 3 := by
      intro h; rw [arityOk] at hA; simp [hL, hM, hT, hT1, hC, h] at hA
    have hmain : main env args = usageExit env createTakhtitUsage := by
      simp [main, h2, hL, hM, hT, hT1, hC, h3]
    rw [hmain]
    exact usageExit_bad env createTakhtitUsage (argD args 1) (by simp [usageMsgs])
  by_cases hI : argD args 1 = "import-takhtit"
  · have hA : arityOk args = false := hbad.resolve_left (by simp [knownCommand, hI])
    have h5 : args.length ≠ 5 := by
      intro h; rw [arityOk] at hA; simp [hL, hM, hT, hT1, hC, hI, h] at hA
    have hmain : main env args = usageExit env importTakhtitUsage := by
      simp [main, h2, hL, hM, hT, hT1, hC, hI, h5]
    rw [hmain]
    exact usageExit_bad env importTakhtitUsage (argD args 1) (by simp [usageMsgs])
  · have hmain : main env args =
        { tokenFile := env.tokenFile, takhtitFile := env.takhtitFile,
          output := ["Unknown command: " ++ argD args 1],
          requests := [], exitCode := some 1 } := by
      simp [main, h2, hL, hM, hT, hT1, hC, hI]
    rw [hmain]
    exact ⟨rfl, rfl, "Unknown command: " ++ argD args 1, rfl, Or.inr rfl⟩

/-- Claim C8 witness: `create-takhtit` invoked with no argument (too few)
prints its usage line and exits 1 with no request. -/
theorem main_rejects_bad_args_witness :
    (main env0 ["script.py", "create-takhtit"]).exitCode = some 1 ∧
    (main env0 ["script.py", "create-takhtit"]).requests = [] ∧
    ∃ m, (main env0 ["script.py", "create-takhtit"]).output = [m] ∧
      (m ∈ usageMsgs ∨
        m = "Unknown command: " ++ argD ["script.py", "create-takhtit"] 1) :=
  main_rejects_bad_args env0 ["script.py", "create-takhtit"] (by decide)
    (Or.inr (by decide))

end Importer
